import Mathlib

set_option autoImplicit false

/- Shallow embedding of the rust-plugin-system core.

   Source layout:
   - src/plugin-interface/src/handle.rs   : LoadedLib, PluginHandle, close,
     perform_unload_mut, Drop for LoadedLib, GreeterProxy
   - src/plugin-interface/src/manager.rs  : PluginManager, load_plugins,
     unload_by_path
   - src/plugin-annotations/src/lib.rs    : generated register/unregister
     symbols, aggregated register_all/unregister_all, unmaker counter

   Machine integers: indices and counters are modelled as Nat (usize/u64
   values never overflow in the modelled paths); raw pointers are modelled
   as Nat identifiers with null represented by Option.none where a pointer
   may be null.  Rust Result<T, E> is modelled by RustResult below. -/

/-- Mirror of Rust `Result<α, ε>`: `ok` is `Ok`, `err` is `Err`. -/
inductive RustResult (ε α : Type) where
  | ok (a : α)
  | err (e : ε)
deriving DecidableEq, Repr

/- ===== PluginId (handle.rs, PluginHandle::new, lines 80-92) =====
   let ptr_val = inner.arr_ptr as usize as u128;
   let id = PluginId((index as u128) ^ ptr_val);
   Both operands are usize values (< 2^64), so the u128 xor is exact and
   is modelled by Nat xor. -/

/-- Model of the `PluginId` derivation in `PluginHandle::new`:
the id is `(index as u128) ^ (arr_ptr as usize as u128)`. -/
def mkPluginId (index ptrVal : Nat) : Nat :=
  index ^^^ ptrVal

/- ===== Generated ABI wrapper and GreeterProxy::name =====
   plugin-annotations/src/lib.rs lines 200-213 (string-returning wrapper):
     let res = std::panic::catch_unwind(... instance.name());
     match res with Ok(s) => CString::new(s).unwrap().into_raw(),
                    Err(_) => std::ptr::null()
   plugin-interface/src/handle.rs lines 223-232 (GreeterProxy::name):
     let c = (v.name)(v.user_data);
     CStr::from_ptr(c).to_string_lossy().into_owned()
   CStr::from_ptr on a null pointer is undefined behaviour; the proxy
   performs no null check. -/

/-- Outcome of running the plugin's trait method body under
`catch_unwind` inside the generated wrapper: either it returned a string
or it raised an unwinding exception. -/
inductive MethodOutcome where
  | ok (s : String)
  | panicked
deriving DecidableEq, Repr

/-- Model of the generated string-returning ABI wrapper
(plugin-annotations lines 200-213): a caught unwind is reported as a
null pointer (`none`); a normal return is a fresh non-null C string. -/
def nameWrapperABI : MethodOutcome → Option String
  | .ok s => some s
  | .panicked => none

/-- What the host-side caller of `GreeterProxy::name` can observe:
either a string value, or undefined behaviour (the proxy dereferenced a
null pointer via `CStr::from_ptr`). -/
inductive ProxyStringResult where
  | value (s : String)
  | undefinedBehavior
deriving DecidableEq, Repr

/-- Model of `CStr::from_ptr` followed by `to_string_lossy` as used in
`GreeterProxy::name`: on a non-null pointer it yields the (lossily
decoded) string; on a null pointer the call is undefined behaviour. -/
def cstrFromPtrModel : Option String → ProxyStringResult
  | some s => .value s
  | none => .undefinedBehavior

/-- Model of `GreeterProxy::name` (handle.rs lines 223-232): it calls the
vtable `name` entry (the generated wrapper) and passes the returned
pointer straight to `CStr::from_ptr` with no null check. -/
def greeterProxyName (impl : MethodOutcome) : ProxyStringResult :=
  cstrFromPtrModel (nameWrapperABI impl)

/- ===== GreeterProxy::greet (handle.rs lines 234-243) =====
   let c_target = CString::new(target).expect("target contains null");
   ...
   (v.greet)(v.user_data, c_target.as_ptr());
   CString::new fails exactly when the byte string contains an interior
   NUL; expect on that failure panics. -/

/-- Model of `CString::new` on the bytes of `target`: fails (None) when
the bytes contain an interior NUL, otherwise appends the terminating
NUL. -/
def cstringNew (bytes : List Nat) : Option (List Nat) :=
  if 0 ∈ bytes then none else some (bytes ++ [0])

/-- Observable outcome of `GreeterProxy::greet`: either the host panics
(in `expect`), or the vtable `greet` entry is invoked with the given
`user_data` and argument bytes. -/
inductive GreetOutcome where
  | panic
  | call (userData : Nat) (arg : List Nat)
deriving DecidableEq, Repr

/-- The part of `GreeterVTable` that `greet` reads: its own `user_data`
pointer (modelled as a Nat identifier). -/
structure GreeterVT where
  userData : Nat
deriving DecidableEq, Repr

/-- Model of `GreeterProxy::greet` (handle.rs lines 234-243):
`CString::new(target).expect(..)` then a vtable call passing the
vtable's own `user_data` and the NUL-terminated argument. -/
def greeterProxyGreet (v : GreeterVT) (target : List Nat) : GreetOutcome :=
  match cstringNew target with
  | none => .panic
  | some c => .call v.userData c

/- ===== LoadedLib lifecycle (handle.rs) =====
   The Arc<LoadedLib> ownership is modelled by an explicit state:
   - strong : number of strong references currently held (handles and
     proxies); the manager holds only Weak refs,
   - closed : the AtomicBool latch,
   - torn   : whether perform_unload_mut has run (unmakers invoked),
   - freed  : whether the LoadedLib allocation has been destroyed.
   The teardown result (the optional unmaker counter that
   perform_unload_mut would return) is passed in as a parameter. -/

/-- State of one `Arc<LoadedLib>` allocation. -/
structure LibState where
  strong : Nat
  closed : Bool
  torn : Bool
  freed : Bool
deriving DecidableEq, Repr

/-- Model of dropping one strong reference without calling `close`.
When the last strong reference drops, `LoadedLib::drop`
(handle.rs lines 206-213) runs: it performs the unload only if the
`closed` latch is still false, then stores `closed = true`. -/
def dropStrong (s : LibState) : LibState :=
  if s.strong = 1 then
    { strong := 0
      closed := true
      torn := s.torn || !s.closed
      freed := true }
  else
    { s with strong := s.strong - 1 }

/-- Model of `PluginHandle::close` (handle.rs lines 108-118).
`teardownCounter` is the value `perform_unload_mut` would return
(`some c` when the plugin exports the counter symbol).  The code first
swaps the `closed` latch to true; if it was already set it returns
`Ok(None)` (the handle's Arc still drops).  Otherwise `Arc::try_unwrap`
succeeds exactly when this handle holds the only strong reference, in
which case `unload_loaded_lib` performs the teardown; otherwise the
latch stays set and `Ok(None)` is returned. -/
def closeHandle (s : LibState) (teardownCounter : Option Nat) :
    RustResult String (Option Nat) × LibState :=
  if s.closed then
    (.ok none, dropStrong s)
  else
    if s.strong = 1 then
      (.ok teardownCounter,
        { strong := 0, closed := true, torn := true, freed := true })
    else
      (.ok none, { s with closed := true, strong := s.strong - 1 })

/-- Initial state for the C1 scenario: one `LoadedLib` shared by two
strong owners, not yet closed, not yet torn down. -/
def twoOwnerLib : LibState :=
  { strong := 2, closed := false, torn := false, freed := false }

/-- C1: PluginHandle::close with other strong owners still alive marks the
library closed and returns Ok(None); the claim then says that the Drop of
the last surviving strong reference performs the full teardown.  In the
code, close() has already set the `closed` latch, so `LoadedLib::drop`
skips `perform_unload_mut` entirely: the final drop frees the LoadedLib
with `torn = false` — the unmakers are never invoked.  This contradicts
the doc comment on `close` ("defer unload to the final Drop") and on
`unload_by_path`; the deferred teardown promised by the spec never runs. -/
theorem close_then_lastDrop_skips_teardown :
    (closeHandle twoOwnerLib (some 1)).1 = RustResult.ok none ∧
    (closeHandle twoOwnerLib (some 1)).2.closed = true ∧
    (closeHandle twoOwnerLib (some 1)).2.strong = 1 ∧
    (dropStrong (closeHandle twoOwnerLib (some 1)).2).freed = true ∧
    (dropStrong (closeHandle twoOwnerLib (some 1)).2).torn = false := by
  refine ⟨rfl, rfl, rfl, rfl, rfl⟩

/-- C7: closing is idempotent.  For a `LoadedLib` shared by at least two
strong owners, after one `close()` has run the `closed` latch is set, and
a subsequent `close()` on another handle to the same `LoadedLib` observes
the latch, performs no teardown (the `torn` flag is unchanged), and
returns `Ok(None)`. -/
theorem close_idempotent (s : LibState) (c c' : Option Nat)
    (h : 2 ≤ s.strong) :
    ((closeHandle s c).2).closed = true ∧
    (closeHandle ((closeHandle s c).2) c').1 = RustResult.ok none ∧
    (closeHandle ((closeHandle s c).2) c').2.torn =
      ((closeHandle s c).2).torn := by
  rcases s with ⟨n, cl, t, fr⟩
  have hn : 2 ≤ n := h
  have hn1 : n ≠ 1 := by omega
  cases cl <;> by_cases h2 : n - 1 = 1 <;>
    simp [closeHandle, dropStrong, h2, hn1]

/-- Witness for close_idempotent at the concrete two-owner state. -/
theorem close_idempotent_witness :
    ((closeHandle twoOwnerLib (some 1)).2).closed = true ∧
    (closeHandle ((closeHandle twoOwnerLib (some 1)).2) none).1 =
      RustResult.ok none ∧
    (closeHandle ((closeHandle twoOwnerLib (some 1)).2) none).2.torn =
      ((closeHandle twoOwnerLib (some 1)).2).torn :=
  close_idempotent twoOwnerLib (some 1) none (by decide)

/-- C9: `PluginId` is stable and usable as a map key: two handles over the
same `LoadedLib` (same `arr_ptr` value) have equal ids exactly when their
indices are equal — in particular, the same index gives the same id, and
for a fixed array pointer different indices give different ids. -/
theorem pluginId_eq_iff (p i j : Nat) :
    mkPluginId i p = mkPluginId j p ↔ i = j := by
  constructor
  · intro h
    have h2 : (i ^^^ p) ^^^ p = (j ^^^ p) ^^^ p := by
      simpa [mkPluginId] using congrArg (fun x => x ^^^ p) h
    simpa [Nat.xor_assoc, Nat.xor_self, Nat.xor_zero] using h2
  · intro h
    simp [mkPluginId, h]

/-- C10: `GreeterProxy::greet(target)` panics exactly when `target`
contains an interior NUL byte (the `CString::new` result is unwrapped
with `expect`); for every other target, the vtable `greet` entry is
invoked with the vtable's own `user_data` and the NUL-terminated bytes
of `target`. -/
theorem greet_spec (v : GreeterVT) (target : List Nat) :
    (0 ∈ target → greeterProxyGreet v target = GreetOutcome.panic) ∧
    (0 ∉ target →
      greeterProxyGreet v target = GreetOutcome.call v.userData (target ++ [0])) := by
  constructor
  · intro h
    simp [greeterProxyGreet, cstringNew, h]
  · intro h
    simp [greeterProxyGreet, cstringNew, h]

/-- Witness for greet_spec: a NUL-free target is forwarded NUL-terminated,
and a target with an interior NUL panics. -/
theorem greet_spec_witness :
    greeterProxyGreet ⟨7⟩ [104, 105] = GreetOutcome.call 7 [104, 105, 0] ∧
    greeterProxyGreet ⟨7⟩ [104, 0, 105] = GreetOutcome.panic :=
  ⟨(greet_spec ⟨7⟩ [104, 105]).2 (by decide),
   (greet_spec ⟨7⟩ [104, 0, 105]).1 (by decide)⟩

/-- C5 counterexample: when the plugin's string-returning method raises an
unwinding exception, the generated wrapper catches it and returns a null
pointer, but `GreeterProxy::name` passes that pointer to `CStr::from_ptr`
without a null check: the proxy call is undefined behaviour, not an empty
string or an error sentinel. -/
theorem proxyName_panicked_is_ub :
    greeterProxyName MethodOutcome.panicked = ProxyStringResult.undefinedBehavior ∧
    greeterProxyName MethodOutcome.panicked ≠ ProxyStringResult.value "" := by
  refine ⟨rfl, ?_⟩
  intro h
  cases h

/-- C5 amended: an unwinding exception inside the plugin method never
propagates across the generated ABI wrapper — the wrapper catches it and
reports it as a null return — but `GreeterProxy::name` performs no null
check, so for a panicking method the proxy call is undefined behaviour
(`CStr::from_ptr(null)`) rather than an empty string; for a normally
returning method the proxy yields the returned string. -/
theorem nameWrapper_catches_unwind (impl : MethodOutcome) :
    (impl = MethodOutcome.panicked →
      nameWrapperABI impl = none ∧
      greeterProxyName impl = ProxyStringResult.undefinedBehavior) ∧
    (∀ s, impl = MethodOutcome.ok s →
      greeterProxyName impl = ProxyStringResult.value s) := by
  constructor
  · intro h
    subst h
    exact ⟨rfl, rfl⟩
  · intro s h
    subst h
    rfl

/-- Witness for nameWrapper_catches_unwind at the panicking outcome. -/
theorem nameWrapper_catches_unwind_witness :
    nameWrapperABI MethodOutcome.panicked = none ∧
    greeterProxyName MethodOutcome.panicked = ProxyStringResult.undefinedBehavior :=
  (nameWrapper_catches_unwind MethodOutcome.panicked).1 rfl

/- ===== PluginManager (manager.rs) =====
   State: libs : Vec<Weak<LoadedLib>>, loaded_paths : HashSet<PathBuf>.
   A Weak entry is dead exactly when the referenced LibState has
   strong = 0 (Weak::upgrade fails); upgrading a live entry creates one
   additional strong reference, so the count the code observes with
   Arc::strong_count(&strong) is st.strong + 1. -/

/-- One entry of the manager's `libs` vector: a weak reference to a
`LoadedLib` loaded from `path`. -/
structure LibEntry where
  path : String
  st : LibState
deriving DecidableEq, Repr

/-- The `PluginManager` state: weak refs to loaded libs plus the set of
loaded paths (modelled as a list). -/
structure MgrState where
  libs : List LibEntry
  loadedPaths : List String
deriving DecidableEq, Repr

/-- Model of the scan loop inside `PluginManager::unload_by_path`
(manager.rs lines 51-85).  Dead weak refs are removed; for a live entry
with matching path the code tests `Arc::strong_count(&strong) == 1`,
where `strong` is the Arc just produced by `Weak::upgrade`, i.e. the
observed count is `st.strong + 1`.  In the (unreachable) immediate
branch the entry and path are removed and `unload_loaded_lib` returns
`teardownCounter`; otherwise the `closed` latch is stored and `Ok(None)`
is returned with the weak entry kept.  Returns the result together with
the updated libs vector and loaded-path set. -/
def unloadScan (p : String) (teardownCounter : Option Nat) :
    List LibEntry → List String →
    RustResult String (Option Nat) × List LibEntry × List String
  | [], paths => (.ok none, [], paths)
  | e :: rest, paths =>
    if e.st.strong = 0 then
      unloadScan p teardownCounter rest paths
    else if e.path = p then
      if e.st.strong + 1 = 1 then
        (.ok teardownCounter, rest, paths.filter (fun q => q ≠ p))
      else
        (.ok none,
          { e with st := { e.st with closed := true } } :: rest,
          paths.filter (fun q => q ≠ p))
    else
      match unloadScan p teardownCounter rest paths with
      | (r, rest2, paths2) => (r, e :: rest2, paths2)

/-- Model of `PluginManager::unload_by_path` (manager.rs lines 51-85). -/
def unloadByPath (m : MgrState) (p : String) (teardownCounter : Option Nat) :
    RustResult String (Option Nat) × MgrState :=
  match unloadScan p teardownCounter m.libs m.loadedPaths with
  | (r, libs2, paths2) => (r, { libs := libs2, loadedPaths := paths2 })

/-- Helper: the scan loop of `unload_by_path` always returns `Ok(None)`:
the immediate-unload branch requires the observed strong count
`st.strong + 1` to equal 1, which contradicts the liveness guard
`st.strong ≠ 0` of the very same iteration. -/
theorem unloadScan_ok_none (p : String) (c : Option Nat) :
    ∀ (es : List LibEntry) (paths : List String),
      (unloadScan p c es paths).1 = RustResult.ok none := by
  intro es
  induction es with
  | nil => intro paths; rfl
  | cons e rest ih =>
    intro paths
    by_cases h0 : e.st.strong = 0
    · simp [unloadScan, h0, ih]
    · by_cases hp : e.path = p
      · have h1 : e.st.strong + 1 ≠ 1 := by omega
        simp [unloadScan, h0, hp, h1]
      · simp only [unloadScan, if_neg h0, if_neg hp]
        have := ih paths
        cases hscan : unloadScan p c rest paths with
        | mk r tail =>
          rw [hscan] at this
          simpa using this

/-- C2: `PluginManager::unload_by_path` can never perform the immediate
unload and return `Ok(Some(counter))`.  Whenever the scan finds a live
matching `LoadedLib`, the Arc produced by `Weak::upgrade` makes the
observed strong count at least 2, so the `strong_count == 1` branch that
removes the weak entry, consumes the `LoadedLib` and returns the counter
is unreachable: every call returns `Ok(None)`, contradicting the claim
(and the function's own doc comment, and spec scenario S4). -/
theorem unloadByPath_never_some (m : MgrState) (p : String)
    (teardownCounter : Option Nat) :
    (unloadByPath m p teardownCounter).1 = RustResult.ok none := by
  unfold unloadByPath
  have := unloadScan_ok_none p teardownCounter m.libs m.loadedPaths
  cases hscan : unloadScan p teardownCounter m.libs m.loadedPaths with
  | mk r tail =>
    rw [hscan] at this
    simpa using this

/- ===== PluginManager::load_plugins (manager.rs lines 97-183) =====
   For each directory entry: skip non dynamic-library extensions, skip
   paths already in loaded_paths, open the library (a dlopen failure is
   mapped to PluginLoadError::Lib and propagated with `?`, aborting the
   whole call), then probe plugin_register_all_<T>_v1 (null result:
   skip; else push a weak ref, record the path and emit one handle per
   registration), else plugin_register_<T>_v1 (null: skip; else
   host-owned single-entry array and one handle), else skip silently.
   After the loop, an empty handle vector is NoRegistrations.  A file is
   classified by the behaviour the code can encounter: -/

/-- Behaviour of one candidate file when `load_plugins` processes it. -/
inductive FileKind where
  | openError
  | regAll (n : Nat)
  | regAllNull
  | single
  | singleNull
  | noSymbols
deriving DecidableEq, Repr

/-- One directory entry: its path, whether its extension is the platform
dynamic-library extension, and how the library behaves when probed. -/
structure FileEntry where
  path : String
  isDylibExt : Bool
  kind : FileKind
deriving DecidableEq, Repr

/-- Model of a returned `PluginHandle`: which library path it came from
and its registration index. -/
structure HandleM where
  path : String
  index : Nat
deriving DecidableEq, Repr

/-- Mirror of `PluginLoadError` (manager.rs lines 19-23); the payloads of
`Io` and `Lib` are not modelled. -/
inductive PluginLoadError where
  | io
  | lib
  | noRegistrations
deriving DecidableEq, Repr

/-- A freshly created `LoadedLib` whose `n` handles are the strong
owners. -/
def freshLib (n : Nat) : LibState :=
  { strong := n, closed := false, torn := false, freed := false }

/-- The pair of manager mutations performed on a successful per-file
load: `self.libs.push(Arc::downgrade(&loaded))` and
`self.loaded_paths.insert(path)`. -/
def pushLib (m : MgrState) (p : String) (n : Nat) : MgrState :=
  { libs := m.libs ++ [{ path := p, st := freshLib n }]
    loadedPaths := m.loadedPaths ++ [p] }

/-- Model of the per-entry loop of `PluginManager::load_plugins`
(manager.rs lines 104-176), processing the directory listing in order
and threading the manager state. -/
def loadLoop : MgrState → List FileEntry →
    RustResult PluginLoadError (List HandleM) × MgrState
  | m, [] => (.ok [], m)
  | m, f :: fs =>
    if f.isDylibExt = false then loadLoop m fs
    else if f.path ∈ m.loadedPaths then loadLoop m fs
    else
      match f.kind with
      | .openError => (.err .lib, m)
      | .regAllNull => loadLoop m fs
      | .singleNull => loadLoop m fs
      | .noSymbols => loadLoop m fs
      | .regAll n =>
        match loadLoop (pushLib m f.path n) fs with
        | (.ok hs, m3) =>
          (.ok ((List.range n).map (fun i => { path := f.path, index := i }) ++ hs), m3)
        | (.err e, m3) => (.err e, m3)
      | .single =>
        match loadLoop (pushLib m f.path 1) fs with
        | (.ok hs, m3) => (.ok ({ path := f.path, index := 0 } :: hs), m3)
        | (.err e, m3) => (.err e, m3)

/-- Model of `PluginManager::load_plugins` (manager.rs lines 97-183).
`listing` is the result of `dir.read_dir()`: a failure of the directory
listing itself is returned as `Io`; otherwise the entries are processed
in order and an empty handle vector becomes `NoRegistrations`. -/
def loadPlugins (m : MgrState) (listing : RustResult Unit (List FileEntry)) :
    RustResult PluginLoadError (List HandleM) × MgrState :=
  match listing with
  | .err _ => (.err .io, m)
  | .ok fs =>
    match loadLoop m fs with
    | (.ok hs, m2) =>
      if hs.isEmpty then (.err .noRegistrations, m2) else (.ok hs, m2)
    | (.err e, m2) => (.err e, m2)

/-- Helper: the loop only ever adds paths to `loaded_paths`. -/
theorem loadLoop_paths_mono (fs : List FileEntry) :
    ∀ (m : MgrState) (q : String),
      q ∈ m.loadedPaths → q ∈ (loadLoop m fs).2.loadedPaths := by
  induction fs with
  | nil => intro m q hq; simpa [loadLoop] using hq
  | cons f fs ih =>
    intro m q hq
    by_cases hd : f.isDylibExt = false
    · simpa [loadLoop, hd] using ih m q hq
    · by_cases hmem : f.path ∈ m.loadedPaths
      · simpa [loadLoop, hd, hmem] using ih m q hq
      · have hq2 : ∀ n, q ∈ (pushLib m f.path n).loadedPaths := by
          intro n
          simp [pushLib, hq]
        cases hk : f.kind with
        | openError => simp [loadLoop, hd, hmem, hk, hq]
        | regAllNull => simpa [loadLoop, hd, hmem, hk] using ih m q hq
        | singleNull => simpa [loadLoop, hd, hmem, hk] using ih m q hq
        | noSymbols => simpa [loadLoop, hd, hmem, hk] using ih m q hq
        | regAll n =>
          have h3 := ih (pushLib m f.path n) q (hq2 n)
          cases h4 : loadLoop (pushLib m f.path n) fs with
          | mk r m3 =>
            rw [h4] at h3
            cases r <;> simp_all [loadLoop, hd, hmem, hk, h4]
        | single =>
          have h3 := ih (pushLib m f.path 1) q (hq2 1)
          cases h4 : loadLoop (pushLib m f.path 1) fs with
          | mk r m3 =>
            rw [h4] at h3
            cases r <;> simp_all [loadLoop, hd, hmem, hk, h4]

/-- Helper: every handle produced by the loop comes from a path that was
not yet in `loaded_paths` when the call started. -/
theorem loadLoop_handles_new (fs : List FileEntry) :
    ∀ (m : MgrState) (hs : List HandleM) (m2 : MgrState),
      loadLoop m fs = (.ok hs, m2) →
      ∀ hM ∈ hs, hM.path ∉ m.loadedPaths := by
  induction fs with
  | nil =>
    intro m hs m2 heq hM hmem
    simp only [loadLoop] at heq
    cases heq
    simp at hmem
  | cons f fs ih =>
    intro m hs m2 heq hM hmem
    by_cases hd : f.isDylibExt = false
    · simp only [loadLoop, if_pos hd] at heq
      exact ih m hs m2 heq hM hmem
    · by_cases hp : f.path ∈ m.loadedPaths
      · simp only [loadLoop, if_neg hd, if_pos hp] at heq
        exact ih m hs m2 heq hM hmem
      · cases hk : f.kind with
        | openError => simp [loadLoop, hd, hp, hk] at heq
        | regAllNull =>
          simp only [loadLoop, if_neg hd, if_neg hp, hk] at heq
          exact ih m hs m2 heq hM hmem
        | singleNull =>
          simp only [loadLoop, if_neg hd, if_neg hp, hk] at heq
          exact ih m hs m2 heq hM hmem
        | noSymbols =>
          simp only [loadLoop, if_neg hd, if_neg hp, hk] at heq
          exact ih m hs m2 heq hM hmem
        | regAll n =>
          simp only [loadLoop, if_neg hd, if_neg hp, hk] at heq
          cases h4 : loadLoop (pushLib m f.path n) fs with
          | mk r m3 =>
            rw [h4] at heq
            cases r with
            | err e => simp at heq
            | ok hs1 =>
              simp only at heq
              cases heq
              rcases List.mem_append.mp hmem with hnew | hold
              · rcases List.mem_map.mp hnew with ⟨i, hi, hMeq⟩
                intro hcon
                apply hp
                rw [← hMeq] at hcon
                exact hcon
              · have h5 := ih (pushLib m f.path n) hs1 _ h4 hM hold
                intro hcon
                apply h5
                simp [pushLib, hcon]
        | single =>
          simp only [loadLoop, if_neg hd, if_neg hp, hk] at heq
          cases h4 : loadLoop (pushLib m f.path 1) fs with
          | mk r m3 =>
            rw [h4] at heq
            cases r with
            | err e => simp at heq
            | ok hs1 =>
              simp only at heq
              cases heq
              rcases List.mem_cons.mp hmem with hnew | hold
              · intro hcon
                apply hp
                rw [hnew] at hcon
                exact hcon
              · have h5 := ih (pushLib m f.path 1) hs1 _ h4 hM hold
                intro hcon
                apply h5
                simp [pushLib, hcon]

/-- Helper: re-running the loop from the final state of a successful run
over the same listing loads nothing and leaves the state unchanged:
every loadable file's path was recorded, and every other file is skipped
for the same reason as before. -/
theorem loadLoop_second_pass (fs : List FileEntry) :
    ∀ (m : MgrState) (hs : List HandleM) (m2 : MgrState),
      loadLoop m fs = (.ok hs, m2) →
      loadLoop m2 fs = (.ok [], m2) := by
  induction fs with
  | nil =>
    intro m hs m2 heq
    simp only [loadLoop] at heq
    rw [Prod.mk.injEq] at heq
    rw [← heq.2]
    rfl
  | cons f fs ih =>
    intro m hs m2 heq
    by_cases hd : f.isDylibExt = false
    · simp only [loadLoop, if_pos hd] at heq ⊢
      exact ih m hs m2 heq
    · by_cases hp : f.path ∈ m.loadedPaths
      · simp only [loadLoop, if_neg hd, if_pos hp] at heq
        have hp2 : f.path ∈ m2.loadedPaths := by
          have := loadLoop_paths_mono fs m f.path hp
          rw [heq] at this
          exact this
        simp only [loadLoop, if_neg hd, if_pos hp2]
        exact ih m hs m2 heq
      · cases hk : f.kind with
        | openError => simp [loadLoop, hd, hp, hk] at heq
        | regAllNull =>
          simp only [loadLoop, if_neg hd, if_neg hp, hk] at heq
          have h2 := ih m hs m2 heq
          by_cases hp2 : f.path ∈ m2.loadedPaths
          · simp only [loadLoop, if_neg hd, if_pos hp2]
            exact h2
          · simp only [loadLoop, if_neg hd, if_neg hp2, hk]
            exact h2
        | singleNull =>
          simp only [loadLoop, if_neg hd, if_neg hp, hk] at heq
          have h2 := ih m hs m2 heq
          by_cases hp2 : f.path ∈ m2.loadedPaths
          · simp only [loadLoop, if_neg hd, if_pos hp2]
            exact h2
          · simp only [loadLoop, if_neg hd, if_neg hp2, hk]
            exact h2
        | noSymbols =>
          simp only [loadLoop, if_neg hd, if_neg hp, hk] at heq
          have h2 := ih m hs m2 heq
          by_cases hp2 : f.path ∈ m2.loadedPaths
          · simp only [loadLoop, if_neg hd, if_pos hp2]
            exact h2
          · simp only [loadLoop, if_neg hd, if_neg hp2, hk]
            exact h2
        | regAll n =>
          simp only [loadLoop, if_neg hd, if_neg hp, hk] at heq
          cases h4 : loadLoop (pushLib m f.path n) fs with
          | mk r mf =>
            rw [h4] at heq
            cases r with
            | err e => simp at heq
            | ok hs1 =>
              simp only [Prod.mk.injEq] at heq
              have hm : mf = m2 := heq.2
              subst hm
              have h5 := ih (pushLib m f.path n) hs1 _ h4
              have hpin : f.path ∈ (pushLib m f.path n).loadedPaths := by
                simp [pushLib]
              have hp2 : f.path ∈ mf.loadedPaths := by
                have := loadLoop_paths_mono fs (pushLib m f.path n) f.path hpin
                rw [h4] at this
                exact this
              simp only [loadLoop, if_neg hd, if_pos hp2]
              exact h5
        | single =>
          simp only [loadLoop, if_neg hd, if_neg hp, hk] at heq
          cases h4 : loadLoop (pushLib m f.path 1) fs with
          | mk r mf =>
            rw [h4] at heq
            cases r with
            | err e => simp at heq
            | ok hs1 =>
              simp only [Prod.mk.injEq] at heq
              have hm : mf = m2 := heq.2
              subst hm
              have h5 := ih (pushLib m f.path 1) hs1 _ h4
              have hpin : f.path ∈ (pushLib m f.path 1).loadedPaths := by
                simp [pushLib]
              have hp2 : f.path ∈ mf.loadedPaths := by
                have := loadLoop_paths_mono fs (pushLib m f.path 1) f.path hpin
                rw [h4] at this
                exact this
              simp only [loadLoop, if_neg hd, if_pos hp2]
              exact h5

/-- C8: a second `load_plugins` call without an intervening unload skips
every path already recorded in `loaded_paths` — the handles of any
successful call all come from paths that were not yet recorded — and an
immediate second call over an unchanged directory finds no new
registrations and returns the `NoRegistrations` error. -/
theorem loadPlugins_dedup_second_call (m : MgrState) (fs : List FileEntry)
    (hs : List HandleM) (m2 : MgrState)
    (h1 : loadPlugins m (.ok fs) = (.ok hs, m2)) :
    (∀ hM ∈ hs, hM.path ∉ m.loadedPaths) ∧
    (loadPlugins m2 (.ok fs)).1 = RustResult.err PluginLoadError.noRegistrations := by
  have h2 : loadLoop m fs = (.ok hs, m2) := by
    simp only [loadPlugins] at h1
    cases h3 : loadLoop m fs with
    | mk r m3 =>
      rw [h3] at h1
      cases r with
      | err e => simp at h1
      | ok hs0 =>
        by_cases hemp : hs0.isEmpty
        · simp [hemp] at h1
        · simp only [hemp, if_false, Bool.false_eq_true, Prod.mk.injEq,
            RustResult.ok.injEq] at h1
          rw [h1.1, h1.2]
  constructor
  · exact loadLoop_handles_new fs m hs m2 h2
  · have h4 := loadLoop_second_pass fs m hs m2 h2
    simp [loadPlugins, h4]

/-- Witness for loadPlugins_dedup_second_call on a one-file directory. -/
theorem loadPlugins_dedup_second_call_witness :
    (loadPlugins { libs := [{ path := "a.so", st := freshLib 1 }], loadedPaths := ["a.so"] }
        (.ok [{ path := "a.so", isDylibExt := true, kind := FileKind.regAll 1 }])).1 =
      RustResult.err PluginLoadError.noRegistrations :=
  (loadPlugins_dedup_second_call { libs := [], loadedPaths := [] }
      [{ path := "a.so", isDylibExt := true, kind := FileKind.regAll 1 }]
      [{ path := "a.so", index := 0 }]
      { libs := [{ path := "a.so", st := freshLib 1 }], loadedPaths := ["a.so"] }
      (by decide)).2

/-- A candidate library file whose `Library::new` fails with a
dynamic-linker error. -/
def dlErrFile : FileEntry :=
  { path := "bad.so", isDylibExt := true, kind := FileKind.openError }

/-- A healthy candidate library file with one aggregated registration. -/
def goodFile : FileEntry :=
  { path := "good.so", isDylibExt := true, kind := FileKind.regAll 1 }

/-- A fresh manager with nothing loaded. -/
def emptyMgr : MgrState :=
  { libs := [], loadedPaths := [] }

/-- C4 counterexample: a dynamic-linker error while opening one candidate
is NOT skipped — `load_plugins` maps it through `?` to `Lib` and aborts
the whole call, so the healthy library listed right after it is never
loaded and no handles are returned. -/
theorem loadPlugins_dlopen_aborts :
    (loadPlugins emptyMgr (.ok [dlErrFile, goodFile])).1 =
      RustResult.err PluginLoadError.lib ∧
    ∀ hs, (loadPlugins emptyMgr (.ok [dlErrFile, goodFile])).1 ≠ RustResult.ok hs := by
  refine ⟨rfl, ?_⟩
  intro hs h
  rw [(rfl : (loadPlugins emptyMgr (.ok [dlErrFile, goodFile])).1 =
      RustResult.err PluginLoadError.lib)] at h
  exact RustResult.noConfusion h

/-- C4 amended: per-file failures to expose a registration symbol (or
that return a null registration) are skipped and enumeration continues;
failure of the directory listing itself aborts with `Io`; but a
dynamic-linker error opening one candidate aborts the whole call with
`Lib` instead of being skipped. -/
theorem loadPlugins_error_policy (m : MgrState) (f : FileEntry)
    (fs : List FileEntry) :
    (loadPlugins m (.err ()) = (.err PluginLoadError.io, m)) ∧
    (f.isDylibExt = true → f.path ∉ m.loadedPaths → f.kind = FileKind.openError →
      loadLoop m (f :: fs) = (.err PluginLoadError.lib, m)) ∧
    ((f.kind = FileKind.noSymbols ∨ f.kind = FileKind.regAllNull ∨
        f.kind = FileKind.singleNull) →
      loadLoop m (f :: fs) = loadLoop m fs) := by
  refine ⟨rfl, ?_, ?_⟩
  · intro hd hp hk
    have hd2 : ¬(f.isDylibExt = false) := by simp [hd]
    simp [loadLoop, hd2, hp, hk]
  · intro hk
    by_cases hd : f.isDylibExt = false
    · simp [loadLoop, hd]
    · by_cases hp : f.path ∈ m.loadedPaths
      · simp [loadLoop, hd, hp]
      · rcases hk with hk | hk | hk <;> simp [loadLoop, hd, hp, hk]

/-- Witness for loadPlugins_error_policy: the dlopen-failure case and the
missing-symbols skip case at concrete inputs. -/
theorem loadPlugins_error_policy_witness :
    loadLoop emptyMgr [dlErrFile] = (.err PluginLoadError.lib, emptyMgr) ∧
    loadLoop emptyMgr
        [{ path := "n.so", isDylibExt := true, kind := FileKind.noSymbols }] =
      loadLoop emptyMgr [] :=
  ⟨(loadPlugins_error_policy emptyMgr dlErrFile []).2.1 rfl (by decide) rfl,
   (loadPlugins_error_policy emptyMgr
      { path := "n.so", isDylibExt := true, kind := FileKind.noSymbols } []).2.2
      (Or.inl rfl)⟩

/- ===== Plugin-side inventory and aggregated symbols =====
   plugin-annotations/src/lib.rs, attribute plugin_aggregates
   (lines 338-459) and the per-impl generated unregister (lines 290-310).
   A RegistrationFactory (plugin-interface/src/lib.rs lines 39-47) is a
   maker/unmaker pair plus a trait name; the maker/unmaker pair generated
   for one impl is identified here by `fid`, and the registration
   pointers returned by makers are Nat identifiers. -/

/-- Model of `plugin_interface::RegistrationFactory`: one inventory
entry, i.e. the paired maker/unmaker generated for a single impl
(identified by `fid`) together with its trait name. -/
structure RegistrationFactory where
  fid : Nat
  traitName : String
deriving DecidableEq, Repr

/-- Model of `plugin_interface::RegistrationArray`: the registration
pointers (entries may be null) and the parallel factory-pointer array
(`none` when `factories` is the null pointer, as in host-synthesized
arrays).  The `count` field always equals the backing length in every
array the program builds, so it is represented by `regs.length`. -/
structure RegistrationArray where
  regs : List (Option Nat)
  facs : Option (List (Option Nat))
deriving DecidableEq, Repr

/-- The pairs `(registration pointer, factory fid)` collected by the
generated `plugin_register_all_<T>_v1` (plugin-annotations lines
378-410): walk the inventory in order, keep entries whose trait name
matches, invoke each maker, and keep only non-null results. -/
def madeList (inv : List RegistrationFactory) (make : Nat → Option Nat)
    (tn : String) : List (Nat × Nat) :=
  (inv.filter (fun f => f.traitName = tn)).filterMap
    (fun f => (make f.fid).map (fun r => (r, f.fid)))

/-- Model of the generated `plugin_register_all_<T>_v1`: null when the
filtered set made nothing, else a fresh RegistrationArray whose `regs`
and `facs` are the two parallel arrays. -/
def registerAll (inv : List RegistrationFactory) (make : Nat → Option Nat)
    (tn : String) : Option RegistrationArray :=
  if madeList inv make tn = [] then none
  else
    some { regs := (madeList inv make tn).map (fun x => some x.1)
           facs := some ((madeList inv make tn).map (fun x => some x.2)) }

/-- The factory the generated `plugin_unregister_all_<T>_v1` actually
selects for EVERY registration: the inner loop scans the inventory and
calls the unmaker of the first factory whose trait name matches, then
breaks (plugin-annotations lines 437-445). -/
def firstMatchingFid (inv : List RegistrationFactory) (tn : String) :
    Option Nat :=
  (inv.find? (fun f => f.traitName = tn)).map (fun f => f.fid)

/-- Observable effect of `plugin_unregister_all_<T>_v1`: the unmaker
calls it performs, as `(factory fid, registration pointer)` pairs in
order, and whether it freed the registration-pointer backing array and
the RegistrationArray struct. -/
structure UnregisterEffect where
  calls : List (Nat × Nat)
  freedRegsArray : Bool
  freedStruct : Bool
deriving DecidableEq, Repr

/-- Model of the generated `plugin_unregister_all_<T>_v1`
(plugin-annotations lines 412-455).  Null array: return with no effect.
Otherwise the struct is reclaimed (`Box::from_raw`); if the pointer
array is non-null and the count positive it is reclaimed too, and for
each non-null registration pointer the unmaker of the FIRST
trait-matching inventory factory is invoked (a registration whose trait
has no inventory match gets no call). -/
def unregisterAll (inv : List RegistrationFactory) (tn : String) :
    Option RegistrationArray → UnregisterEffect
  | none => { calls := [], freedRegsArray := false, freedStruct := false }
  | some a =>
    if a.regs.length = 0 then
      { calls := [], freedRegsArray := false, freedStruct := true }
    else
      { calls := a.regs.filterMap (fun r? => r?.bind (fun r =>
          (firstMatchingFid inv tn).map (fun fid => (fid, r))))
        freedRegsArray := true
        freedStruct := true }

/-- Which of the optional per-trait symbols the plugin exports, as probed
by `perform_unload_mut` (handle.rs lines 144-146): the aggregated
unregister, the single-registration unregister (its unmaker identified
by `singleFid`), and the unmaker counter getter. -/
structure PluginSyms where
  hasUnregAll : Bool
  hasUnregSingle : Bool
  hasCounter : Bool
  singleFid : Nat
deriving DecidableEq, Repr

/-- Model of `perform_unload_mut` (handle.rs lines 127-203).  Returns the
unmaker calls performed and the Result value: `Ok(None)` for a null or
empty array; otherwise the calls follow the host-owned (factories null)
or plugin-owned branch, preferring the aggregated unregister symbol, and
the counter getter — read after the unmaker calls — yields the initial
counter plus one increment per generated unmaker call (the generated
unregister functions each increment `UNMAKER_COUNTER` exactly once,
plugin-annotations lines 297-303). -/
def performUnload (inv : List RegistrationFactory) (syms : PluginSyms)
    (tn : String) (arr : Option RegistrationArray) (c0 : Nat) :
    List (Nat × Nat) × RustResult String (Option Nat) :=
  match arr with
  | none => ([], .ok none)
  | some a =>
    if a.regs.length = 0 then ([], .ok none)
    else
      match a.facs with
      | none =>
        let calls :=
          if syms.hasUnregAll then (unregisterAll inv tn (some a)).calls
          else if syms.hasUnregSingle then
            a.regs.filterMap (fun r? => r?.map (fun r => (syms.singleFid, r)))
          else []
        (calls, .ok (if syms.hasCounter then some (c0 + calls.length) else none))
      | some fl =>
        let calls :=
          if syms.hasUnregAll then (unregisterAll inv tn (some a)).calls
          else
            (a.regs.zip fl).filterMap (fun pr =>
              pr.1.bind (fun r =>
                match pr.2 with
                | some fid => some (fid, r)
                | none =>
                  if syms.hasUnregSingle then some (syms.singleFid, r) else none))
        (calls, .ok (if syms.hasCounter then some (c0 + calls.length) else none))

/-- Helper: when the aggregated maker produced anything, the inventory
contains a trait-matching factory, so the scan in unregisterAll finds
one. -/
theorem firstMatching_isSome_of_made (inv : List RegistrationFactory)
    (make : Nat → Option Nat) (tn : String)
    (h : madeList inv make tn ≠ []) :
    ∃ fid, firstMatchingFid inv tn = some fid := by
  have hfil : inv.filter (fun f => decide (f.traitName = tn)) ≠ [] := by
    intro hnil
    apply h
    simp [madeList, hnil]
  rcases List.exists_mem_of_ne_nil _ hfil with ⟨f, hf⟩
  have hmem := List.mem_filter.mp hf
  have hsome : (inv.find? (fun f => decide (f.traitName = tn))).isSome := by
    rw [List.find?_isSome]
    exact ⟨f, hmem.1, hmem.2⟩
  rcases Option.isSome_iff_exists.mp hsome with ⟨f0, hf0⟩
  exact ⟨f0.fid, by simp [firstMatchingFid, hf0]⟩

/-- Helper: shape of the unregister calls for an array built by the
aggregated register: the first trait-matching factory's unmaker is
invoked once per made registration, in order. -/
theorem unregisterAll_calls_eq (inv : List RegistrationFactory)
    (make : Nat → Option Nat) (tn : String) (a : RegistrationArray)
    (h : registerAll inv make tn = some a) :
    ∃ fid, firstMatchingFid inv tn = some fid ∧
      a.regs = (madeList inv make tn).map (fun x => some x.1) ∧
      a.facs = some ((madeList inv make tn).map (fun x => some x.2)) ∧
      (unregisterAll inv tn (some a)).calls =
        (madeList inv make tn).map (fun x => (fid, x.1)) ∧
      (unregisterAll inv tn (some a)).freedRegsArray = true ∧
      (unregisterAll inv tn (some a)).freedStruct = true := by
  by_cases hnil : madeList inv make tn = []
  · simp [registerAll, hnil] at h
  · rcases firstMatching_isSome_of_made inv make tn hnil with ⟨fid, hfid⟩
    refine ⟨fid, hfid, ?_⟩
    simp only [registerAll, if_neg hnil] at h
    have ha : a = { regs := (madeList inv make tn).map (fun x => some x.1)
                    facs := some ((madeList inv make tn).map (fun x => some x.2)) } := by
      cases h
      rfl
    subst ha
    have hlen : ((madeList inv make tn).map
        (fun x : Nat × Nat => some x.1)).length ≠ 0 := by
      simp [hnil]
    refine ⟨rfl, rfl, ?_, ?_, ?_⟩
    · simp only [unregisterAll, if_neg hlen]
      simp only [hfid, List.filterMap_map]
      have h2 : ((fun r? : Option Nat =>
          r?.bind fun a => Option.map (fun fid2 => (fid2, a)) (some fid)) ∘
          fun x : Nat × Nat => some x.1) =
          some ∘ (fun x : Nat × Nat => (fid, x.1)) := rfl
      rw [h2, List.filterMap_eq_map]
    · simp only [unregisterAll, if_neg hlen]
    · simp only [unregisterAll, if_neg hlen]

/-- A plugin inventory with two Greeter factories, as produced by a crate
with two `#[plugin_impl(Greeter)]` impls (e.g. plugin-multi's GreeterOne
and GreeterTwo). -/
def greeterInv : List RegistrationFactory :=
  [{ fid := 1, traitName := "Greeter" }, { fid := 2, traitName := "Greeter" }]

/-- Concrete maker behaviour for greeterInv: factory `fid` returns the
non-null registration pointer `100 + fid`. -/
def mkGreeter : Nat → Option Nat :=
  fun fid => some (100 + fid)

/-- C3 counterexample: with two factories for the same trait, the
aggregated unregister does NOT invoke the unmaker of the factory that
made each registration.  `register_all` pairs registration 102 with
factory 2, but `unregister_all` ignores the parallel factories array and
calls the unmaker of the FIRST trait-matching inventory factory for
every registration: registration 102 is released by factory 1's unmaker
and factory 2's unmaker is never called. -/
theorem unregisterAll_unpaired :
    registerAll greeterInv mkGreeter "Greeter" =
      some { regs := [some 101, some 102], facs := some [some 1, some 2] } ∧
    (unregisterAll greeterInv "Greeter"
        (registerAll greeterInv mkGreeter "Greeter")).calls = [(1, 101), (1, 102)] ∧
    ¬ (2, 102) ∈ (unregisterAll greeterInv "Greeter"
        (registerAll greeterInv mkGreeter "Greeter")).calls := by
  decide

/-- C3 amended: for every array produced by the aggregated register, the
aggregated unregister invokes, for each non-null registration pointer in
order, the unmaker of the first trait-matching inventory factory (not
necessarily the paired one), then frees the registration-pointer backing
array and the RegistrationArray struct itself. -/
theorem unregisterAll_first_match (inv : List RegistrationFactory)
    (make : Nat → Option Nat) (tn : String) (a : RegistrationArray)
    (h : registerAll inv make tn = some a) :
    (∀ c ∈ (unregisterAll inv tn (some a)).calls,
        some c.1 = firstMatchingFid inv tn) ∧
    (unregisterAll inv tn (some a)).calls.map Prod.snd = a.regs.filterMap id ∧
    (unregisterAll inv tn (some a)).freedRegsArray = true ∧
    (unregisterAll inv tn (some a)).freedStruct = true := by
  rcases unregisterAll_calls_eq inv make tn a h with
    ⟨fid, hfid, hregs, hfacs, hcalls, hfr, hfs⟩
  refine ⟨?_, ?_, hfr, hfs⟩
  · intro c hc
    rw [hcalls] at hc
    rcases List.mem_map.mp hc with ⟨x, hx, hxeq⟩
    rw [← hxeq, hfid]
  · rw [hcalls, hregs, List.map_map, List.filterMap_map]
    have h2 : (id ∘ fun x : Nat × Nat => some x.1) =
        some ∘ (fun x : Nat × Nat => x.1) := rfl
    rw [h2, List.filterMap_eq_map]
    rfl

/-- Witness for unregisterAll_first_match at the two-factory plugin. -/
theorem unregisterAll_first_match_witness :
    (unregisterAll greeterInv "Greeter"
        (some { regs := [some 101, some 102],
                facs := some [some 1, some 2] })).calls.map Prod.snd =
      [101, 102] := by
  have h := unregisterAll_first_match greeterInv mkGreeter "Greeter"
      { regs := [some 101, some 102], facs := some [some 1, some 2] } (by decide)
  rw [h.2.1]
  rfl

/-- C6: for every library whose plugin was built with the aggregated
symbols and the counter getter, one generated unmaker runs per
registration in the array — the unmaker calls of `perform_unload_mut`
list exactly the non-null registrations in order — so the counter value
returned by the teardown equals the value before plus the number of
registrations in the array. -/
theorem teardown_counter_symmetry (inv : List RegistrationFactory)
    (make : Nat → Option Nat) (syms : PluginSyms) (tn : String)
    (a : RegistrationArray) (c0 : Nat)
    (hA : registerAll inv make tn = some a)
    (hAll : syms.hasUnregAll = true)
    (hCnt : syms.hasCounter = true) :
    (performUnload inv syms tn (some a) c0).2 =
      RustResult.ok (some (c0 + a.regs.length)) ∧
    (performUnload inv syms tn (some a) c0).1.map Prod.snd =
      a.regs.filterMap id := by
  rcases unregisterAll_calls_eq inv make tn a hA with
    ⟨fid, hfid, hregs, hfacs, hcalls, hfr, hfs⟩
  have hnil : madeList inv make tn ≠ [] := by
    intro h0
    rw [registerAll, if_pos h0] at hA
    exact Option.noConfusion hA
  obtain ⟨regsL, facsL⟩ := a
  dsimp only at hregs hfacs hcalls ⊢
  subst hregs
  subst hfacs
  have hlen : (List.map (fun x : Nat × Nat => some x.1)
      (madeList inv make tn)).length ≠ 0 := by
    simp [hnil]
  constructor
  · simp only [performUnload, if_neg hlen, hAll, hCnt, if_true]
    rw [hcalls]
    simp [List.length_map]
  · simp only [performUnload, if_neg hlen, hAll, if_true]
    rw [hcalls, List.map_map, List.filterMap_map]
    have h2 : (id ∘ fun x : Nat × Nat => some x.1) =
        some ∘ (fun x : Nat × Nat => x.1) := rfl
    rw [h2, List.filterMap_eq_map]
    rfl

/-- Witness for teardown_counter_symmetry at the two-factory plugin,
starting from counter value 5. -/
theorem teardown_counter_symmetry_witness :
    (performUnload greeterInv
        { hasUnregAll := true, hasUnregSingle := false,
          hasCounter := true, singleFid := 0 }
        "Greeter"
        (some { regs := [some 101, some 102], facs := some [some 1, some 2] })
        5).2 = RustResult.ok (some 7) :=
  (teardown_counter_symmetry greeterInv mkGreeter
      { hasUnregAll := true, hasUnregSingle := false,
        hasCounter := true, singleFid := 0 }
      "Greeter"
      { regs := [some 101, some 102], facs := some [some 1, some 2] }
      5 (by decide) rfl rfl).1
